import Mathlib

/-!
# Smart recycling bin controller (`Hardware codes/main.cpp.cpp`)

A state-passing embedding of the controller in `main.cpp.cpp`.

* The five global variables of the program form `Globals`.
* Every call into a collaborator that acts on the appliance (display, tone
  player, timer, output pins, PWM, sorter) is recorded, in program order, in
  `State.trace`.  Each record carries the values the global variables had at
  the moment of the call, so the course of a variable during a function can be
  read off the trace.
* `printf` diagnostics on the serial console are recorded in `State.console`.
* Values read from collaborators (sensor readings, the key, the classifier
  result, lookup tables of the missing headers) are supplied by `Env`.

The headers `lcd.h`, `keypad.h`, `music.h`, `seg7.h`, `trashlevel.h` and
`trashtype.h` are not part of the sources; what is used of them is either a
recorded call, a field of `Env`, or a definition marked as modelled from the
specification.
-/

namespace SmartBin

/-! ## Data model -/

/-- The enumeration `MenuState` of the source. -/
inductive MenuState where
  | MENU_MAIN
  | MENU_STATS
  | MENU_SETTINGS
  | MENU_MANUAL
deriving DecidableEq, Repr

/-- Modelled from the spec: the enumeration `MaterialType` of the missing header
`trashtype.h`, the closed set {Plastic, Metal, Paper, Glass, Unknown}. -/
inductive MaterialType where
  | Plastic
  | Metal
  | Paper
  | Glass
  | Unknown
deriving DecidableEq, Repr

/-- The pitch constants of `music.h` that the program names; only their names
are used. -/
inductive Note where
  | NOTE_F3
  | NOTE_A3
  | NOTE_C4
  | NOTE_E4
  | NOTE_G4
  | NOTE_A4
  | NOTE_C5
  | NOTE_E5
  | NOTE_G5
  | NOTE_C6
deriving DecidableEq, Repr

/-- The `DigitalOut` objects of the program. -/
inductive Pin where
  | motorIN1
  | motorIN2
  | ledSystem
  | ledBinFull
deriving DecidableEq, Repr

/-- The `BusOut` objects of the program. -/
inductive Bus where
  | seg7Data
  | seg7Digit
deriving DecidableEq, Repr

/-- The array `unsigned char itemCount[4]`; `c0` is `itemCount[0]`, the least
significant digit. -/
structure ItemCount where
  c0 : Nat
  c1 : Nat
  c2 : Nat
  c3 : Nat
deriving DecidableEq, Repr

/-- The global variables of the program. -/
structure Globals where
  itemCount : ItemCount
  totalItems : Int
  systemEnabled : Bool
  doorOpen : Bool
  currentMenu : MenuState
deriving DecidableEq, Repr

/-- A call that acts on the appliance. `doorMotorWrite` carries the duty cycle
in percent (`0.7f` is 70, `0.0f` is 0). -/
inductive Event where
  | lcd_init
  | lcd_Clear
  | lcd_write_cmd (c : Nat)
  | lcd_write_data (c : Char)
  | tone (note : Note) (duration : Nat)
  | music
  | thread_sleep_for (ms : Nat)
  | pinWrite (p : Pin) (v : Nat)
  | busWrite (b : Bus) (v : Nat)
  | doorMotorWrite (percent : Nat)
  | doorMotorPeriodMs (ms : Nat)
  | pirSensorModePullDown
  | detectMaterial
  | rotateToBin (m : MaterialType)
deriving DecidableEq, Repr

/-- The program state: the globals, the value last written to `ledSystem`
(the only output the program reads back), the trace of calls, each with the
globals at the time of the call, and the serial console. -/
structure State extends Globals where
  ledSystem : Nat
  trace : List (Event × Globals)
  console : List String
deriving DecidableEq, Repr

/-- What the collaborators return during one run of a function. -/
structure Env where
  /-- Result of `pirSensor` read as an `int`. -/
  pirSensor : Nat
  /-- Result of `getkey()`. -/
  key : Char
  /-- Result of `sorter.detectMaterial()`. -/
  material : MaterialType
  /-- The function `sorter.getMaterialName`. -/
  getMaterialName : MaterialType → String
  /-- Results of `isFull()` of the four bins. -/
  plasticFull : Bool
  metalFull : Bool
  paperFull : Bool
  glassFull : Bool
  /-- Results of `getCapacityPercent()` of the plastic and the metal bin. -/
  plasticLevel : Int
  metalLevel : Int
  /-- The function `convert` of `seg7.h`. -/
  convert : Nat → Nat

/-- The events of a state, in program order, without the recorded globals. -/
def State.events (s : State) : List Event := s.trace.map Prod.fst

/-! ## Machine arithmetic -/

/-- A value stored in an `int` (32 bits, two's complement); an increment past
the largest `int` wraps around, as the add instruction of the target does. -/
def wrapInt32 (x : Int) : Int := (x + 2147483648) % 4294967296 - 2147483648

/-- A value stored in an `unsigned char`. -/
def wrapUInt8 (x : Nat) : Nat := x % 256

/-- The byte passed to `lcd_write_data` for an `int` argument. -/
def byteChar (x : Int) : Char := Char.ofNat (x % 256).toNat

/-! ## Primitive statements -/

/-- Record a call, together with the globals at the time of the call. -/
def emit (e : Event) (s : State) : State :=
  { s with trace := s.trace ++ [(e, s.toGlobals)] }

/-- A line written by `printf`. -/
def printf (line : String) (s : State) : State :=
  { s with console := s.console ++ [line] }

def lcd_write_cmd (c : Nat) (s : State) : State := emit (Event.lcd_write_cmd c) s

def lcd_write_data (c : Char) (s : State) : State := emit (Event.lcd_write_data c) s

def tone (n : Note) (d : Nat) (s : State) : State := emit (Event.tone n d) s

def thread_sleep_for (ms : Nat) (s : State) : State := emit (Event.thread_sleep_for ms) s

def pinWrite (p : Pin) (v : Nat) (s : State) : State := emit (Event.pinWrite p v) s

def busWrite (b : Bus) (v : Nat) (s : State) : State := emit (Event.busWrite b v) s

def doorMotorWrite (percent : Nat) (s : State) : State := emit (Event.doorMotorWrite percent) s

/-- The characters of a C string: those before the first NUL. -/
def cstr (name : String) : List Char := name.toList.takeWhile (fun c => c != Char.ofNat 0)

/-- Write a list of characters with `lcd_write_data`, one call each. -/
def lcd_write_chars (cs : List Char) (s : State) : State :=
  cs.foldl (fun st c => lcd_write_data c st) s

/-! ## Door control -/

def openDoor (s : State) : State :=
  let s := lcd_write_cmd 0x01 s
  let s := lcd_write_cmd 0x80 s
  let s := lcd_write_data 'O' s
  let s := lcd_write_data 'p' s
  let s := lcd_write_data 'e' s
  let s := lcd_write_data 'n' s
  let s := lcd_write_data 'i' s
  let s := lcd_write_data 'n' s
  let s := lcd_write_data 'g' s
  let s := lcd_write_data '.' s
  let s := lcd_write_data '.' s
  let s := lcd_write_data '.' s
  let s := pinWrite Pin.motorIN1 1 s
  let s := pinWrite Pin.motorIN2 0 s
  let s := doorMotorWrite 70 s
  let s := thread_sleep_for 2000 s
  let s := pinWrite Pin.motorIN1 0 s
  let s := pinWrite Pin.motorIN2 0 s
  let s := doorMotorWrite 0 s
  let s := { s with doorOpen := true }
  printf "Door opened\r\n" s

def closeDoor (s : State) : State :=
  let s := lcd_write_cmd 0x01 s
  let s := lcd_write_cmd 0x80 s
  let s := lcd_write_data 'C' s
  let s := lcd_write_data 'l' s
  let s := lcd_write_data 'o' s
  let s := lcd_write_data 's' s
  let s := lcd_write_data 'i' s
  let s := lcd_write_data 'n' s
  let s := lcd_write_data 'g' s
  let s := lcd_write_data '.' s
  let s := lcd_write_data '.' s
  let s := lcd_write_data '.' s
  let s := pinWrite Pin.motorIN1 0 s
  let s := pinWrite Pin.motorIN2 1 s
  let s := doorMotorWrite 70 s
  let s := thread_sleep_for 2000 s
  let s := pinWrite Pin.motorIN1 0 s
  let s := pinWrite Pin.motorIN2 0 s
  let s := doorMotorWrite 0 s
  let s := { s with doorOpen := false }
  printf "Door closed\r\n" s

/-! ## Sounds -/

def playWelcomeSound (s : State) : State :=
  let s := tone Note.NOTE_C4 8 s
  let s := tone Note.NOTE_E4 8 s
  tone Note.NOTE_G4 4 s

def playSuccessSound (s : State) : State :=
  let s := tone Note.NOTE_C5 8 s
  let s := tone Note.NOTE_E5 8 s
  let s := tone Note.NOTE_G5 8 s
  tone Note.NOTE_C6 4 s

def playErrorSound (s : State) : State :=
  let s := tone Note.NOTE_C4 8 s
  let s := tone Note.NOTE_A3 8 s
  tone Note.NOTE_F3 4 s

/-- The loop `for(int i = 0; i < 3; i++)` of `playBinFullSound`, with `n` the
number of iterations left. -/
def playBinFullSoundLoop : Nat → State → State
  | 0, s => s
  | n + 1, s =>
    let s := tone Note.NOTE_A4 8 s
    let s := thread_sleep_for 100 s
    playBinFullSoundLoop n s

def playBinFullSound (s : State) : State := playBinFullSoundLoop 3 s

/-! ## Seven-segment counter -/

/-- The element `itemCount[digit]` for `digit` below 4. -/
def ItemCount.get (c : ItemCount) : Nat → Nat
  | 0 => c.c0
  | 1 => c.c1
  | 2 => c.c2
  | _ => c.c3

/-- The loop `for(int digit = 0; digit < 4; digit++)` of `updateSegmentDisplay`,
over the digits still to be shown. -/
def updateSegmentDisplayLoop (env : Env) : List Nat → State → State
  | [], s => s
  | digit :: rest, s =>
    let s := busWrite Bus.seg7Digit 0x00 s
    let s := busWrite Bus.seg7Digit (1 <<< digit) s
    let s := busWrite Bus.seg7Data (env.convert (s.itemCount.get digit)) s
    let s := thread_sleep_for 5 s
    updateSegmentDisplayLoop env rest s

def updateSegmentDisplay (env : Env) (s : State) : State :=
  updateSegmentDisplayLoop env [0, 1, 2, 3] s

/-- Modelled from the spec: the function `update(itemCount, 4)` of the missing
header `seg7.h`, taken as decimal carry propagation over the four digits: from
the least significant digit on, what exceeds 9 is carried into the next digit,
and the carry out of the last digit is dropped. -/
def update (c : ItemCount) : ItemCount :=
  let d1 := c.c1 + c.c0 / 10
  let d2 := c.c2 + d1 / 10
  let d3 := c.c3 + d2 / 10
  { c0 := c.c0 % 10, c1 := d1 % 10, c2 := d2 % 10, c3 := d3 % 10 }

def incrementCounter (s : State) : State :=
  let s := { s with itemCount := { s.itemCount with c0 := wrapUInt8 (s.itemCount.c0 + 1) } }
  let s := { s with itemCount := update s.itemCount }
  { s with totalItems := wrapInt32 (s.totalItems + 1) }

/-! ## LCD screens -/

/-- Left-pad a digit string with `'0'` up to the given width. -/
def zeroPad (width : Nat) (ds : List Char) : List Char :=
  List.replicate (width - ds.length) '0' ++ ds

/-- The characters `sprintf(buffer, "%04d", n)` produces, without the
terminating NUL. -/
def sprintf04d (n : Int) : List Char :=
  if 0 ≤ n then zeroPad 4 (Nat.toDigits 10 n.toNat)
  else '-' :: zeroPad 3 (Nat.toDigits 10 (-n).toNat)

def displayMainMenu (s : State) : State :=
  let s := lcd_write_cmd 0x01 s
  let s := lcd_write_cmd 0x80 s
  let s := lcd_write_data 'S' s
  let s := lcd_write_data 'm' s
  let s := lcd_write_data 'a' s
  let s := lcd_write_data 'r' s
  let s := lcd_write_data 't' s
  let s := lcd_write_data ' ' s
  let s := lcd_write_data 'B' s
  let s := lcd_write_data 'i' s
  let s := lcd_write_data 'n' s
  let s := lcd_write_cmd 0xC0 s
  let s := lcd_write_data 'I' s
  let s := lcd_write_data 't' s
  let s := lcd_write_data 'e' s
  let s := lcd_write_data 'm' s
  let s := lcd_write_data 's' s
  let s := lcd_write_data ':' s
  let s := lcd_write_data ' ' s
  -- `buffer[0]` to `buffer[3]`; the formatted text has at least four characters
  lcd_write_chars ((sprintf04d s.totalItems).take 4) s

def displayStats (env : Env) (s : State) : State :=
  let s := lcd_write_cmd 0x01 s
  let s := lcd_write_cmd 0x80 s
  let s := lcd_write_data 'B' s
  let s := lcd_write_data 'i' s
  let s := lcd_write_data 'n' s
  let s := lcd_write_data ' ' s
  let s := lcd_write_data 'L' s
  let s := lcd_write_data 'e' s
  let s := lcd_write_data 'v' s
  let s := lcd_write_data 'e' s
  let s := lcd_write_data 'l' s
  let s := lcd_write_data 's' s
  let s := lcd_write_cmd 0xC0 s
  let plasticLevel := env.plasticLevel
  let metalLevel := env.metalLevel
  let s := lcd_write_data 'P' s
  let s := lcd_write_data ':' s
  let s := lcd_write_data (byteChar (48 + Int.tdiv plasticLevel 10)) s
  let s := lcd_write_data (byteChar (48 + Int.tmod plasticLevel 10)) s
  let s := lcd_write_data ' ' s
  let s := lcd_write_data 'M' s
  let s := lcd_write_data ':' s
  let s := lcd_write_data (byteChar (48 + Int.tdiv metalLevel 10)) s
  lcd_write_data (byteChar (48 + Int.tmod metalLevel 10)) s

def displaySettings (s : State) : State :=
  let s := lcd_write_cmd 0x01 s
  let s := lcd_write_cmd 0x80 s
  let s := lcd_write_data 'S' s
  let s := lcd_write_data 'e' s
  let s := lcd_write_data 't' s
  let s := lcd_write_data 't' s
  let s := lcd_write_data 'i' s
  let s := lcd_write_data 'n' s
  let s := lcd_write_data 'g' s
  let s := lcd_write_data 's' s
  let s := lcd_write_cmd 0xC0 s
  let s := lcd_write_data 'A' s
  let s := lcd_write_data ':' s
  if s.systemEnabled then
    let s := lcd_write_data 'O' s
    lcd_write_data 'N' s
  else
    let s := lcd_write_data 'O' s
    let s := lcd_write_data 'F' s
    lcd_write_data 'F' s

def displayProcessing (s : State) : State :=
  let s := lcd_write_cmd 0x01 s
  let s := lcd_write_cmd 0x80 s
  let s := lcd_write_data 'P' s
  let s := lcd_write_data 'r' s
  let s := lcd_write_data 'o' s
  let s := lcd_write_data 'c' s
  let s := lcd_write_data 'e' s
  let s := lcd_write_data 's' s
  let s := lcd_write_data 's' s
  let s := lcd_write_data 'i' s
  let s := lcd_write_data 'n' s
  let s := lcd_write_data 'g' s
  let s := lcd_write_data '.' s
  let s := lcd_write_data '.' s
  lcd_write_data '.' s

/-! ## Bin level check -/

def checkBinLevels (env : Env) (s : State) : State :=
  if env.plasticFull || env.metalFull || env.paperFull || env.glassFull then
    let s := pinWrite Pin.ledBinFull 1 s
    let s := playBinFullSound s
    let s := lcd_write_cmd 0x01 s
    let s := lcd_write_cmd 0x80 s
    let s := lcd_write_data 'W' s
    let s := lcd_write_data 'A' s
    let s := lcd_write_data 'R' s
    let s := lcd_write_data 'N' s
    let s := lcd_write_data 'I' s
    let s := lcd_write_data 'N' s
    let s := lcd_write_data 'G' s
    let s := lcd_write_data '!' s
    let s := lcd_write_cmd 0xC0 s
    let s := lcd_write_data 'B' s
    let s := lcd_write_data 'i' s
    let s := lcd_write_data 'n' s
    let s := lcd_write_data ' ' s
    let s := lcd_write_data 'F' s
    let s := lcd_write_data 'U' s
    let s := lcd_write_data 'L' s
    let s := lcd_write_data 'L' s
    let s := lcd_write_data '!' s
    thread_sleep_for 3000 s
  else
    pinWrite Pin.ledBinFull 0 s

/-! ## Item processing -/

def processItem (env : Env) (s : State) : State :=
  if !s.systemEnabled then
    playErrorSound s
  else
    let s := printf "\r\n=== Processing New Item ===\r\n" s
    -- Step 1: open door
    let s := openDoor s
    let s := thread_sleep_for 3000 s
    let s := closeDoor s
    -- Step 2: display processing
    let s := displayProcessing s
    -- Step 3: detect material
    let s := emit Event.detectMaterial s
    let material := env.material
    let s := printf ("Detected: " ++ String.mk (cstr (env.getMaterialName material)) ++ "\r\n") s
    -- Step 4: show result on LCD
    let s := lcd_write_cmd 0x01 s
    let s := lcd_write_cmd 0x80 s
    let s := lcd_write_data 'D' s
    let s := lcd_write_data 'e' s
    let s := lcd_write_data 't' s
    let s := lcd_write_data 'e' s
    let s := lcd_write_data 'c' s
    let s := lcd_write_data 't' s
    let s := lcd_write_data 'e' s
    let s := lcd_write_data 'd' s
    let s := lcd_write_data ':' s
    let s := lcd_write_cmd 0xC0 s
    let matName := env.getMaterialName material
    let s := lcd_write_chars ((cstr matName).take 16) s
    let s := thread_sleep_for 2000 s
    -- Step 5: rotate to bin
    let s := emit (Event.rotateToBin material) s
    -- Step 6: increment counter
    let s := incrementCounter s
    -- Step 7: play success sound
    let s := playSuccessSound s
    -- Step 8: check bin levels
    let s := checkBinLevels env s
    -- Step 9: return to main menu
    let s := displayMainMenu s
    printf "=== Processing Complete ===\r\n\r\n" s

/-! ## Keypad handling -/

def handleKeypad (env : Env) (s : State) : State :=
  let key := env.key
  let s := printf ("Key pressed: " ++ String.singleton key ++ "\r\n") s
  let s := tone Note.NOTE_C4 16 s
  match s.currentMenu with
  | MenuState.MENU_MAIN =>
    if key = '1' then
      processItem env s
    else if key = '2' then
      let s := { s with currentMenu := MenuState.MENU_STATS }
      displayStats env s
    else if key = '3' then
      let s := { s with currentMenu := MenuState.MENU_SETTINGS }
      displaySettings s
    else if key = 'A' then
      emit Event.music s
    else s
  | MenuState.MENU_STATS =>
    if key = 'B' || key = '0' then
      let s := { s with currentMenu := MenuState.MENU_MAIN }
      displayMainMenu s
    else s
  | MenuState.MENU_SETTINGS =>
    if key = 'A' then
      let s := { s with systemEnabled := !s.systemEnabled }
      displaySettings s
    else if key = 'B' || key = '0' then
      let s := { s with currentMenu := MenuState.MENU_MAIN }
      displayMainMenu s
    else s
  | MenuState.MENU_MANUAL => s

/-! ## Initialisation and main loop -/

/-- The initial values of the global variables and of the output `ledSystem`. -/
def initialState : State :=
  { itemCount := { c0 := 0, c1 := 0, c2 := 0, c3 := 0 }
    totalItems := 0
    systemEnabled := true
    doorOpen := false
    currentMenu := MenuState.MENU_MAIN
    ledSystem := 0
    trace := []
    console := [] }

def initSystem (s : State) : State :=
  let s := printf "\r\n" s
  let s := printf "==========================================\r\n" s
  let s := printf "    Smart Recycling Bin System v2.0      \r\n" s
  let s := printf "    STM32F103RB with Full Integration    \r\n" s
  let s := printf "==========================================\r\n\r\n" s
  let s := printf "Initializing LCD...\r\n" s
  let s := emit Event.lcd_init s
  let s := emit Event.lcd_Clear s
  let s := emit (Event.doorMotorPeriodMs 1) s
  let s := doorMotorWrite 0 s
  let s := emit Event.pirSensorModePullDown s
  let s := { pinWrite Pin.ledSystem 1 s with ledSystem := 1 }
  let s := pinWrite Pin.ledBinFull 0 s
  let s := lcd_write_cmd 0x80 s
  let s := lcd_write_data 'S' s
  let s := lcd_write_data 'm' s
  let s := lcd_write_data 'a' s
  let s := lcd_write_data 'r' s
  let s := lcd_write_data 't' s
  let s := lcd_write_data ' ' s
  let s := lcd_write_data 'B' s
  let s := lcd_write_data 'i' s
  let s := lcd_write_data 'n' s
  let s := lcd_write_cmd 0xC0 s
  let s := lcd_write_data 'I' s
  let s := lcd_write_data 'n' s
  let s := lcd_write_data 'i' s
  let s := lcd_write_data 't' s
  let s := lcd_write_data 'i' s
  let s := lcd_write_data 'a' s
  let s := lcd_write_data 'l' s
  let s := lcd_write_data 'i' s
  let s := lcd_write_data 'z' s
  let s := lcd_write_data 'i' s
  let s := lcd_write_data 'n' s
  let s := lcd_write_data 'g' s
  let s := lcd_write_data '.' s
  let s := lcd_write_data '.' s
  let s := lcd_write_data '.' s
  let s := playWelcomeSound s
  let s := thread_sleep_for 2000 s
  let s := displayMainMenu s
  let s := printf "System initialized successfully!\r\n" s
  printf "Ready to sort trash!\r\n\r\n" s

/-- One iteration of the `while(1)` loop of `main`. -/
def mainLoopBody (env : Env) (s : State) : State :=
  let s :=
    if env.pirSensor = 1 && !s.doorOpen && s.systemEnabled then
      let s := printf "Motion detected!\r\n" s
      let s := playWelcomeSound s
      let s := processItem env s
      thread_sleep_for 3000 s
    else s
  let s := updateSegmentDisplay env s
  let v := if s.ledSystem = 0 then 1 else 0
  let s := { pinWrite Pin.ledSystem v s with ledSystem := v }
  thread_sleep_for 500 s

/-- The state of `main` after `initSystem()`. -/
def bootState : State := initSystem initialState

/-- The loop of `main` run for as many iterations as there are environments,
the `i`-th iteration reading its inputs from the `i`-th environment. -/
def mainLoop : List Env → State → State
  | [], s => s
  | env :: rest, s => mainLoop rest (mainLoopBody env s)

/-! ## A sample environment -/

/-- A sample collaborator: an empty station, no motion, key `'5'`. -/
def sampleEnv : Env :=
  { pirSensor := 0
    key := '5'
    material := MaterialType.Plastic
    getMaterialName := fun m =>
      match m with
      | MaterialType.Plastic => "Plastic"
      | MaterialType.Metal => "Metal"
      | MaterialType.Paper => "Paper"
      | MaterialType.Glass => "Glass"
      | MaterialType.Unknown => "Unknown"
    plasticFull := false
    metalFull := false
    paperFull := false
    glassFull := false
    plasticLevel := 0
    metalLevel := 0
    convert := fun n => n }

/-- Pair every event of a list with the same globals. -/
def stamp (g : Globals) (es : List Event) : List (Event × Globals) :=
  es.map (fun e => (e, g))

/-- The display calls that write a text, one character per call. -/
def lcdText (cs : List Char) : List Event := cs.map Event.lcd_write_data

/-- The calls of `openDoor`: status text, forward drive for 2000 ms, motor off. -/
def openDoorEvents : List Event :=
  [Event.lcd_write_cmd 0x01, Event.lcd_write_cmd 0x80] ++
  lcdText ['O', 'p', 'e', 'n', 'i', 'n', 'g', '.', '.', '.'] ++
  [Event.pinWrite Pin.motorIN1 1, Event.pinWrite Pin.motorIN2 0, Event.doorMotorWrite 70,
   Event.thread_sleep_for 2000,
   Event.pinWrite Pin.motorIN1 0, Event.pinWrite Pin.motorIN2 0, Event.doorMotorWrite 0]

/-- The calls of `closeDoor`: status text, reverse drive for 2000 ms, motor off. -/
def closeDoorEvents : List Event :=
  [Event.lcd_write_cmd 0x01, Event.lcd_write_cmd 0x80] ++
  lcdText ['C', 'l', 'o', 's', 'i', 'n', 'g', '.', '.', '.'] ++
  [Event.pinWrite Pin.motorIN1 0, Event.pinWrite Pin.motorIN2 1, Event.doorMotorWrite 70,
   Event.thread_sleep_for 2000,
   Event.pinWrite Pin.motorIN1 0, Event.pinWrite Pin.motorIN2 0, Event.doorMotorWrite 0]

/-- The error tone sequence. -/
def errorTones : List Event :=
  [Event.tone Note.NOTE_C4 8, Event.tone Note.NOTE_A3 8, Event.tone Note.NOTE_F3 4]

/-- The success tone sequence. -/
def successTones : List Event :=
  [Event.tone Note.NOTE_C5 8, Event.tone Note.NOTE_E5 8, Event.tone Note.NOTE_G5 8,
   Event.tone Note.NOTE_C6 4]

/-- The welcome tone sequence. -/
def welcomeTones : List Event :=
  [Event.tone Note.NOTE_C4 8, Event.tone Note.NOTE_E4 8, Event.tone Note.NOTE_G4 4]

/-- The calls of `displayProcessing`. -/
def processingEvents : List Event :=
  [Event.lcd_write_cmd 0x01, Event.lcd_write_cmd 0x80] ++
  lcdText ['P', 'r', 'o', 'c', 'e', 's', 's', 'i', 'n', 'g', '.', '.', '.']

/-- The display of the classification result: the heading on line 1 and the
material name, at most 16 characters of it, on line 2. -/
def resultEvents (name : String) : List Event :=
  [Event.lcd_write_cmd 0x01, Event.lcd_write_cmd 0x80] ++
  lcdText ['D', 'e', 't', 'e', 'c', 't', 'e', 'd', ':'] ++
  [Event.lcd_write_cmd 0xC0] ++ lcdText ((cstr name).take 16)

/-- The main menu screen for a given value of `totalItems`. -/
def mainMenuEvents (total : Int) : List Event :=
  [Event.lcd_write_cmd 0x01, Event.lcd_write_cmd 0x80] ++
  lcdText ['S', 'm', 'a', 'r', 't', ' ', 'B', 'i', 'n'] ++
  [Event.lcd_write_cmd 0xC0] ++
  lcdText ['I', 't', 'e', 'm', 's', ':', ' '] ++ lcdText ((sprintf04d total).take 4)

/-- The calls of the alarm branch of `checkBinLevels`: LED on, the alert tone
three times (each followed by a 100 ms pause), the warning text, a 3000 ms
wait. -/
def binFullEvents : List Event :=
  [Event.pinWrite Pin.ledBinFull 1,
   Event.tone Note.NOTE_A4 8, Event.thread_sleep_for 100,
   Event.tone Note.NOTE_A4 8, Event.thread_sleep_for 100,
   Event.tone Note.NOTE_A4 8, Event.thread_sleep_for 100,
   Event.lcd_write_cmd 0x01, Event.lcd_write_cmd 0x80] ++
  lcdText ['W', 'A', 'R', 'N', 'I', 'N', 'G', '!'] ++
  [Event.lcd_write_cmd 0xC0] ++
  lcdText ['B', 'i', 'n', ' ', 'F', 'U', 'L', 'L', '!'] ++
  [Event.thread_sleep_for 3000]

/-- Whether at least one of the four bins reports full. -/
def anyBinFull (env : Env) : Bool :=
  env.plasticFull || env.metalFull || env.paperFull || env.glassFull

/-- The calls of `checkBinLevels`. -/
def binLevelEvents (env : Env) : List Event :=
  if anyBinFull env then binFullEvents else [Event.pinWrite Pin.ledBinFull 0]

/-- The calls of a cycle between the closing of the door and the counting:
processing screen, classification, result screen, 2000 ms wait, routing. -/
def classifyEvents (env : Env) : List Event :=
  processingEvents ++ [Event.detectMaterial] ++
  resultEvents (env.getMaterialName env.material) ++
  [Event.thread_sleep_for 2000, Event.rotateToBin env.material]

/-- The calls of a cycle after the counting: success tones, bin level check,
main menu screen showing the new total. -/
def countedEvents (env : Env) (total : Int) : List Event :=
  successTones ++ binLevelEvents env ++ mainMenuEvents total

/-- The lines a completed cycle prints. -/
def cycleConsole (env : Env) : List String :=
  ["\r\n=== Processing New Item ===\r\n", "Door opened\r\n", "Door closed\r\n",
   "Detected: " ++ String.mk (cstr (env.getMaterialName env.material)) ++ "\r\n",
   "=== Processing Complete ===\r\n\r\n"]

/-- The four decimal digits of `total mod 10000`, least significant first: the
counter the seven-segment display is meant to show. -/
def displayDigits (total : Int) : ItemCount :=
  let k := (total % 10000).toNat
  { c0 := k % 10, c1 := k / 10 % 10, c2 := k / 100 % 10, c3 := k / 1000 % 10 }

/-- The bin level screen for the two fill percentages read. -/
def statsEvents (plasticLevel metalLevel : Int) : List Event :=
  [Event.lcd_write_cmd 0x01, Event.lcd_write_cmd 0x80] ++
  lcdText ['B', 'i', 'n', ' ', 'L', 'e', 'v', 'e', 'l', 's'] ++
  [Event.lcd_write_cmd 0xC0] ++
  lcdText ['P', ':', byteChar (48 + Int.tdiv plasticLevel 10),
    byteChar (48 + Int.tmod plasticLevel 10), ' ',
    'M', ':', byteChar (48 + Int.tdiv metalLevel 10), byteChar (48 + Int.tmod metalLevel 10)]

/-- The settings screen up to and including `A:` on line 2. -/
def settingsHeadEvents : List Event :=
  [Event.lcd_write_cmd 0x01, Event.lcd_write_cmd 0x80] ++
  lcdText ['S', 'e', 't', 't', 'i', 'n', 'g', 's'] ++
  [Event.lcd_write_cmd 0xC0] ++ lcdText ['A', ':']

/-- The settings screen for a given value of `systemEnabled`. -/
def settingsEvents (enabled : Bool) : List Event :=
  settingsHeadEvents ++ (if enabled then lcdText ['O', 'N'] else lcdText ['O', 'F', 'F'])

/-- The transition table of the menu in the specification: the keys listed for
each menu state. -/
def keyListed : MenuState → Char → Bool
  | MenuState.MENU_MAIN, k => k = '1' || k = '2' || k = '3' || k = 'A'
  | MenuState.MENU_STATS, k => k = 'B' || k = '0'
  | MenuState.MENU_SETTINGS, k => k = 'A' || k = 'B' || k = '0'
  | MenuState.MENU_MANUAL, _ => false

/-- The calls of `updateSegmentDisplay`: for each of the four digits, all
digits off, the digit selected, its segment pattern, a 5 ms pause. -/
def segmentEvents (env : Env) (c : ItemCount) : List Event :=
  [Event.busWrite Bus.seg7Digit 0, Event.busWrite Bus.seg7Digit 1,
   Event.busWrite Bus.seg7Data (env.convert c.c0), Event.thread_sleep_for 5,
   Event.busWrite Bus.seg7Digit 0, Event.busWrite Bus.seg7Digit 2,
   Event.busWrite Bus.seg7Data (env.convert c.c1), Event.thread_sleep_for 5,
   Event.busWrite Bus.seg7Digit 0, Event.busWrite Bus.seg7Digit 4,
   Event.busWrite Bus.seg7Data (env.convert c.c2), Event.thread_sleep_for 5,
   Event.busWrite Bus.seg7Digit 0, Event.busWrite Bus.seg7Digit 8,
   Event.busWrite Bus.seg7Data (env.convert c.c3), Event.thread_sleep_for 5]

/-- The value `!ledSystem` written back to the heartbeat LED. -/
def toggled (led : Nat) : Nat := if led = 0 then 1 else 0

/-- The calls that end every iteration of the main loop: counter refresh,
heartbeat toggle, 500 ms idle delay. -/
def housekeepingEvents (env : Env) (c : ItemCount) (led : Nat) : List Event :=
  segmentEvents env c ++ [Event.pinWrite Pin.ledSystem (toggled led), Event.thread_sleep_for 500]

/-- The condition under which an iteration of the main loop starts a cycle. -/
def triggered (env : Env) (s : State) : Prop :=
  env.pirSensor = 1 ∧ s.doorOpen = false ∧ s.systemEnabled = true

instance (env : Env) (s : State) : Decidable (triggered env s) := by
  unfold triggered; infer_instance

/-- The lines printed by the iterations of the main loop that start a cycle
from an enabled system with the door closed: one block per iteration whose
sensor reading is 1, each block a complete cycle. -/
def loopConsole : List Env → List String
  | [] => []
  | env :: rest =>
    (if env.pirSensor = 1 then "Motion detected!\r\n" :: cycleConsole env else []) ++
      loopConsole rest

/-- The globals after a cycle started in `g`: the door closed, `itemCount[0]`
incremented and carried, `totalItems` incremented. -/
def countedGlobals (g : Globals) : Globals :=
  { g with itemCount := update { g.itemCount with c0 := wrapUInt8 (g.itemCount.c0 + 1) }
           totalItems := wrapInt32 (g.totalItems + 1)
           doorOpen := false }

/-- The end of an iteration of the main loop, from the state reached after the
motion check. -/
def housekeeping (env : Env) (s : State) : State :=
  { s with
    ledSystem := toggled s.ledSystem
    trace := s.trace ++ stamp s.toGlobals (housekeepingEvents env s.itemCount s.ledSystem) }

/-! ## Basic facts about the primitive statements -/

theorem emit_eq (e : Event) (s : State) :
    emit e s = { s with trace := s.trace ++ stamp s.toGlobals [e] } := rfl

theorem lcd_write_chars_eq (cs : List Char) (s : State) :
    lcd_write_chars cs s = { s with trace := s.trace ++ stamp s.toGlobals (lcdText cs) } := by
  induction cs generalizing s with
  | nil => simp [lcd_write_chars, stamp, lcdText]
  | cons c cs ih =>
    have h := ih (lcd_write_data c s)
    simp only [lcd_write_chars, List.foldl_cons] at h ⊢
    rw [h]
    simp [lcd_write_data, emit, stamp, lcdText]

theorem openDoor_eq (s : State) :
    openDoor s =
      { s with doorOpen := true
               trace := s.trace ++ stamp s.toGlobals openDoorEvents
               console := s.console ++ ["Door opened\r\n"] } := by
  simp [openDoor, lcd_write_cmd, lcd_write_data, pinWrite, doorMotorWrite, thread_sleep_for,
    emit, printf, stamp, openDoorEvents, lcdText]

theorem closeDoor_eq (s : State) :
    closeDoor s =
      { s with doorOpen := false
               trace := s.trace ++ stamp s.toGlobals closeDoorEvents
               console := s.console ++ ["Door closed\r\n"] } := by
  simp [closeDoor, lcd_write_cmd, lcd_write_data, pinWrite, doorMotorWrite, thread_sleep_for,
    emit, printf, stamp, closeDoorEvents, lcdText]

theorem playErrorSound_eq (s : State) :
    playErrorSound s = { s with trace := s.trace ++ stamp s.toGlobals errorTones } := by
  simp [playErrorSound, tone, emit, stamp, errorTones]

theorem playSuccessSound_eq (s : State) :
    playSuccessSound s = { s with trace := s.trace ++ stamp s.toGlobals successTones } := by
  simp [playSuccessSound, tone, emit, stamp, successTones]

theorem playWelcomeSound_eq (s : State) :
    playWelcomeSound s = { s with trace := s.trace ++ stamp s.toGlobals welcomeTones } := by
  simp [playWelcomeSound, tone, emit, stamp, welcomeTones]

theorem displayProcessing_eq (s : State) :
    displayProcessing s = { s with trace := s.trace ++ stamp s.toGlobals processingEvents } := by
  simp [displayProcessing, lcd_write_cmd, lcd_write_data, emit, stamp, processingEvents, lcdText]

theorem displayMainMenu_eq (s : State) :
    displayMainMenu s =
      { s with trace := s.trace ++ stamp s.toGlobals (mainMenuEvents s.totalItems) } := by
  simp [displayMainMenu, lcd_write_chars_eq, lcd_write_cmd, lcd_write_data, emit, stamp,
    mainMenuEvents, lcdText]

theorem checkBinLevels_eq (env : Env) (s : State) :
    checkBinLevels env s = { s with trace := s.trace ++ stamp s.toGlobals (binLevelEvents env) } := by
  unfold checkBinLevels binLevelEvents anyBinFull
  split <;>
  simp [playBinFullSound, playBinFullSoundLoop, tone, pinWrite, thread_sleep_for,
    lcd_write_cmd, lcd_write_data, emit, stamp, binFullEvents, lcdText]

/-- The complete effect of `processItem` on an enabled system. -/
theorem processItem_enabled_eq (env : Env) (s : State) (h : s.systemEnabled = true) :
    processItem env s =
      { s with
        toGlobals := countedGlobals s.toGlobals
        trace := s.trace ++ stamp s.toGlobals openDoorEvents ++
          stamp { s.toGlobals with doorOpen := true }
            (Event.thread_sleep_for 3000 :: closeDoorEvents) ++
          stamp { s.toGlobals with doorOpen := false } (classifyEvents env) ++
          stamp (countedGlobals s.toGlobals)
            (countedEvents env (wrapInt32 (s.totalItems + 1)))
        console := s.console ++ cycleConsole env } := by
  simp only [processItem, h, Bool.not_true, Bool.false_eq_true, if_false, openDoor_eq,
    closeDoor_eq, displayProcessing_eq, displayMainMenu_eq, checkBinLevels_eq,
    playSuccessSound_eq, lcd_write_chars_eq]
  simp [incrementCounter, lcd_write_cmd, lcd_write_data, thread_sleep_for, emit, printf, stamp,
    classifyEvents, countedEvents, resultEvents, cycleConsole, countedGlobals, lcdText, h]

theorem displayStats_eq (env : Env) (s : State) :
    displayStats env s =
      { s with trace := s.trace ++ stamp s.toGlobals (statsEvents env.plasticLevel env.metalLevel) } := by
  simp [displayStats, lcd_write_cmd, lcd_write_data, emit, stamp, statsEvents, lcdText]

theorem displaySettings_eq (s : State) :
    displaySettings s =
      { s with trace := s.trace ++ stamp s.toGlobals (settingsEvents s.systemEnabled) } := by
  unfold displaySettings settingsEvents
  cases h : s.systemEnabled <;>
  simp [lcd_write_cmd, lcd_write_data, emit, stamp, settingsHeadEvents, lcdText, h]

theorem updateSegmentDisplay_eq (env : Env) (s : State) :
    updateSegmentDisplay env s =
      { s with trace := s.trace ++ stamp s.toGlobals (segmentEvents env s.itemCount) } := by
  simp [updateSegmentDisplay, updateSegmentDisplayLoop, busWrite, thread_sleep_for, emit, stamp,
    segmentEvents, ItemCount.get]

theorem mainLoopBody_idle (env : Env) (s : State) (h : ¬ triggered env s) :
    mainLoopBody env s = housekeeping env s := by
  have hc : (env.pirSensor = 1 && !s.doorOpen && s.systemEnabled) = false := by
    unfold triggered at h
    cases hd : s.doorOpen <;> cases he : s.systemEnabled <;> simp_all
  simp only [mainLoopBody, hc, Bool.false_eq_true, if_false, updateSegmentDisplay_eq]
  simp [housekeeping, housekeepingEvents, toggled, pinWrite, thread_sleep_for, emit, stamp]

theorem mainLoopBody_triggered (env : Env) (s : State) (h : triggered env s) :
    mainLoopBody env s =
      housekeeping env
        { s with
          toGlobals := countedGlobals s.toGlobals
          trace := s.trace ++ stamp s.toGlobals (welcomeTones ++ openDoorEvents) ++
            stamp { s.toGlobals with doorOpen := true }
              (Event.thread_sleep_for 3000 :: closeDoorEvents) ++
            stamp { s.toGlobals with doorOpen := false } (classifyEvents env) ++
            stamp (countedGlobals s.toGlobals)
              (countedEvents env (wrapInt32 (s.totalItems + 1)) ++ [Event.thread_sleep_for 3000])
          console := s.console ++ "Motion detected!\r\n" :: cycleConsole env } := by
  obtain ⟨hp, hd, he⟩ := h
  have hc : (env.pirSensor = 1 && !s.doorOpen && s.systemEnabled) = true := by
    simp [hp, hd, he]
  simp only [mainLoopBody, hc, if_true, playWelcomeSound_eq, printf]
  rw [processItem_enabled_eq env _ (show
    ({ s with trace := s.trace ++ stamp s.toGlobals welcomeTones
              console := s.console ++ ["Motion detected!\r\n"] } : State).systemEnabled = true
    from he)]
  simp only [updateSegmentDisplay_eq]
  simp [housekeeping, housekeepingEvents, toggled, pinWrite, thread_sleep_for, emit, stamp,
    List.append_assoc]

/-- Invariant of the main loop: from an enabled state with the door closed,
any number of iterations ends in such a state, and the console has grown by
whole cycle blocks. -/
theorem mainLoop_invariant (envs : List Env) (s : State)
    (hd : s.doorOpen = false) (he : s.systemEnabled = true) :
    (mainLoop envs s).doorOpen = false ∧ (mainLoop envs s).systemEnabled = true ∧
    (mainLoop envs s).currentMenu = s.currentMenu ∧
    (mainLoop envs s).console = s.console ++ loopConsole envs := by
  induction envs generalizing s with
  | nil => simp [mainLoop, loopConsole, hd, he]
  | cons env rest ih =>
    by_cases hp : env.pirSensor = 1
    · have ht : triggered env s := ⟨hp, hd, he⟩
      have hb := mainLoopBody_triggered env s ht
      have h1 : (mainLoopBody env s).doorOpen = false := by rw [hb]; rfl
      have h2 : (mainLoopBody env s).systemEnabled = true := by rw [hb]; exact he
      have h3 : (mainLoopBody env s).currentMenu = s.currentMenu := by rw [hb]; rfl
      have h4 : (mainLoopBody env s).console =
          s.console ++ "Motion detected!\r\n" :: cycleConsole env := by rw [hb]; rfl
      obtain ⟨i1, i2, i3, i4⟩ := ih (mainLoopBody env s) h1 h2
      refine ⟨i1, i2, i3.trans h3, ?_⟩
      show (mainLoop rest (mainLoopBody env s)).console = _
      rw [i4, h4]
      simp [loopConsole, hp]
    · have ht : ¬ triggered env s := fun h => hp h.1
      have hb := mainLoopBody_idle env s ht
      have h1 : (mainLoopBody env s).doorOpen = false := by rw [hb]; exact hd
      have h2 : (mainLoopBody env s).systemEnabled = true := by rw [hb]; exact he
      have h3 : (mainLoopBody env s).currentMenu = s.currentMenu := by rw [hb]; rfl
      have h4 : (mainLoopBody env s).console = s.console := by rw [hb]; rfl
      obtain ⟨i1, i2, i3, i4⟩ := ih (mainLoopBody env s) h1 h2
      refine ⟨i1, i2, i3.trans h3, ?_⟩
      show (mainLoop rest (mainLoopBody env s)).console = _
      rw [i4, h4]
      simp [loopConsole, hp]

theorem bootState_globals : bootState.toGlobals = initialState.toGlobals := by
  unfold bootState initSystem
  simp only [displayMainMenu_eq, playWelcomeSound_eq]
  rfl

/-- The counting of a cycle whose main menu text fits the buffer: from an
enabled state whose `itemCount` holds the decimal digits of `totalItems`, with
`totalItems` from 0 to 9998, `totalItems` grows by 1 and `itemCount` holds the
decimal digits of the new value. -/
theorem processItem_count_in_bounds (env : Env) (s : State) (h : s.systemEnabled = true)
    (hd : s.itemCount = displayDigits s.totalItems)
    (hlo : 0 ≤ s.totalItems) (hhi : s.totalItems < 9999) :
    (processItem env s).totalItems = s.totalItems + 1 ∧
    (processItem env s).itemCount = displayDigits (s.totalItems + 1) := by
  rw [processItem_enabled_eq env s h]
  have hw : wrapInt32 (s.totalItems + 1) = s.totalItems + 1 := by
    unfold wrapInt32; omega
  refine ⟨hw, ?_⟩
  show update { s.itemCount with c0 := wrapUInt8 (s.itemCount.c0 + 1) } = _
  rw [hd]
  obtain ⟨k, hk⟩ : ∃ k : Nat, s.totalItems % 10000 = (k : Int) :=
    ⟨(s.totalItems % 10000).toNat, by omega⟩
  have hk1 : (s.totalItems + 1) % 10000 = (((k + 1) % 10000 : Nat) : Int) := by omega
  have hlt : k < 10000 := by omega
  simp only [displayDigits, hk, hk1, Int.toNat_ofNat, update, wrapUInt8, ItemCount.mk.injEq]
  omega

/-- C1: when `systemEnabled` is false, `processItem` returns with `itemCount`,
`totalItems`, `doorOpen`, `currentMenu` and `systemEnabled` unchanged; the only
calls it makes are the three tones of the error sequence (no motor, timer,
classifier, sorter or display call), and it prints nothing. -/
theorem processItem_disabled (env : Env) (s : State) (h : s.systemEnabled = false) :
    (processItem env s).itemCount = s.itemCount ∧
    (processItem env s).totalItems = s.totalItems ∧
    (processItem env s).doorOpen = s.doorOpen ∧
    (processItem env s).currentMenu = s.currentMenu ∧
    (processItem env s).systemEnabled = s.systemEnabled ∧
    (processItem env s).events = s.events ++
      [Event.tone Note.NOTE_C4 8, Event.tone Note.NOTE_A3 8, Event.tone Note.NOTE_F3 4] ∧
    (processItem env s).console = s.console ∧
    (processItem env s).ledSystem = s.ledSystem := by
  have hp : processItem env s = playErrorSound s := by
    simp [processItem, h]
  rw [hp, playErrorSound_eq]
  simp [State.events, stamp, errorTones]

/-- Witness of C1: the initial state with the system switched off. -/
theorem processItem_disabled_witness :
    ({ initialState with systemEnabled := false } : State).systemEnabled = false ∧
    (processItem sampleEnv { initialState with systemEnabled := false }).events =
      ({ initialState with systemEnabled := false } : State).events ++
        [Event.tone Note.NOTE_C4 8, Event.tone Note.NOTE_A3 8, Event.tone Note.NOTE_F3 4] :=
  ⟨rfl, (processItem_disabled sampleEnv { initialState with systemEnabled := false } rfl).2.2.2.2.2.1⟩

/-- C3: on an enabled system with the door closed, `doorOpen` is false when
`processItem` returns, and the calls of the cycle fall into three runs: every
call of `openDoor` is made with `doorOpen` false; the settle wait and every
call of `closeDoor` are made with `doorOpen` true; every later call
(classification, result display, routing, success tone, alarm check, main menu)
is made with `doorOpen` false. -/
theorem processItem_doorOpen (env : Env) (s : State) (h : s.systemEnabled = true)
    (hd : s.doorOpen = false) :
    (processItem env s).doorOpen = false ∧
    ∃ before during after : List (Event × Globals),
      (processItem env s).trace = s.trace ++ before ++ during ++ after ∧
      before.map Prod.fst = openDoorEvents ∧
      during.map Prod.fst = Event.thread_sleep_for 3000 :: closeDoorEvents ∧
      after.map Prod.fst =
        classifyEvents env ++ countedEvents env (wrapInt32 (s.totalItems + 1)) ∧
      (∀ r ∈ before, r.2.doorOpen = false) ∧
      (∀ r ∈ during, r.2.doorOpen = true) ∧
      (∀ r ∈ after, r.2.doorOpen = false) := by
  rw [processItem_enabled_eq env s h]
  refine ⟨rfl, stamp s.toGlobals openDoorEvents,
    stamp { s.toGlobals with doorOpen := true } (Event.thread_sleep_for 3000 :: closeDoorEvents),
    stamp { s.toGlobals with doorOpen := false } (classifyEvents env) ++
      stamp (countedGlobals s.toGlobals) (countedEvents env (wrapInt32 (s.totalItems + 1))),
    ?_, ?_, ?_, ?_, ?_, ?_, ?_⟩
  · simp [List.append_assoc]
  · simp [stamp, Function.comp_def]
  · simp [stamp, Function.comp_def]
  · simp [stamp, Function.comp_def]
  · intro r hr
    simp only [stamp, List.mem_map] at hr
    obtain ⟨e, _, rfl⟩ := hr
    exact hd
  · intro r hr
    simp only [stamp, List.mem_map] at hr
    obtain ⟨e, _, rfl⟩ := hr
    rfl
  · intro r hr
    simp only [stamp, List.mem_append, List.mem_map] at hr
    rcases hr with ⟨e, _, rfl⟩ | ⟨e, _, rfl⟩ <;> rfl

/-- Witness of C3: a cycle from the initial state. -/
theorem processItem_doorOpen_witness :
    initialState.systemEnabled = true ∧ initialState.doorOpen = false ∧
    (processItem sampleEnv initialState).doorOpen = false :=
  ⟨rfl, rfl, (processItem_doorOpen sampleEnv initialState rfl rfl).1⟩

/-- C4: for every menu state and every key the transition table does not list
for it, `handleKeypad` leaves `currentMenu`, `systemEnabled`, `itemCount`,
`totalItems` and `doorOpen` unchanged, and the only call it makes is the
acknowledgment beep `tone(NOTE_C4, 16)`; besides, it prints the key on the
serial console. -/
theorem handleKeypad_unlisted (env : Env) (s : State)
    (h : keyListed s.currentMenu env.key = false) :
    (handleKeypad env s).currentMenu = s.currentMenu ∧
    (handleKeypad env s).systemEnabled = s.systemEnabled ∧
    (handleKeypad env s).itemCount = s.itemCount ∧
    (handleKeypad env s).totalItems = s.totalItems ∧
    (handleKeypad env s).doorOpen = s.doorOpen ∧
    (handleKeypad env s).events = s.events ++ [Event.tone Note.NOTE_C4 16] ∧
    (handleKeypad env s).console =
      s.console ++ ["Key pressed: " ++ String.singleton env.key ++ "\r\n"] := by
  obtain ⟨⟨ic, ti, se, d, cm⟩, led, tr, co⟩ := s
  cases cm <;>
  simp_all [handleKeypad, keyListed, tone, emit, printf, State.events]

/-- Witness of C4: key `'5'` in the main menu. -/
theorem handleKeypad_unlisted_witness :
    keyListed initialState.currentMenu sampleEnv.key = false ∧
    (handleKeypad sampleEnv initialState).currentMenu = initialState.currentMenu ∧
    (handleKeypad sampleEnv initialState).events =
      initialState.events ++ [Event.tone Note.NOTE_C4 16] :=
  ⟨by decide, (handleKeypad_unlisted sampleEnv initialState (by decide)).1,
    (handleKeypad_unlisted sampleEnv initialState (by decide)).2.2.2.2.2.1⟩

/-- Counterexample to C5 as stated: key `'1'` in the main menu of the enabled
initial state runs a cycle, after which `itemCount` is 0001 instead of 0000;
and from a state whose `doorOpen` is true the same key leaves `doorOpen`
false. -/
theorem handleKeypad_manual_trigger_counts :
    initialState.currentMenu = MenuState.MENU_MAIN ∧
    initialState.itemCount = { c0 := 0, c1 := 0, c2 := 0, c3 := 0 } ∧
    (handleKeypad { sampleEnv with key := '1' } initialState).itemCount =
      { c0 := 1, c1 := 0, c2 := 0, c3 := 0 } ∧
    (handleKeypad { sampleEnv with key := '1' } initialState).itemCount ≠
      initialState.itemCount ∧
    (handleKeypad { sampleEnv with key := '1' } { initialState with doorOpen := true }).doorOpen ≠
      ({ initialState with doorOpen := true } : State).doorOpen := by
  have h1 : ∀ s : State, s.currentMenu = MenuState.MENU_MAIN → s.systemEnabled = true →
      (handleKeypad { sampleEnv with key := '1' } s).toGlobals = countedGlobals s.toGlobals := by
    intro s hm he
    obtain ⟨⟨ic, ti, se, d, cm⟩, led, tr, co⟩ := s
    simp only at hm he
    subst hm he
    simp only [handleKeypad, tone, emit, printf, if_true]
    rw [processItem_enabled_eq _ _ rfl]
  have e1 := congrArg Globals.itemCount (h1 initialState rfl rfl)
  have e2 := congrArg Globals.doorOpen (h1 { initialState with doorOpen := true } rfl rfl)
  refine ⟨rfl, rfl, ?_, ?_, ?_⟩
  · exact e1.trans (by decide)
  · rw [show (handleKeypad { sampleEnv with key := '1' } initialState).itemCount = _ from e1]
    decide
  · rw [show (handleKeypad { sampleEnv with key := '1' }
      { initialState with doorOpen := true }).doorOpen = _ from e2]
    decide

/-- C5 (amended): except for key `'1'` in the main menu of an enabled system
(the manual trigger, which runs a cycle), `handleKeypad` leaves `doorOpen` and
`itemCount` as they were, for every menu state, key and system state. -/
theorem handleKeypad_frame (env : Env) (s : State)
    (h : ¬ (s.currentMenu = MenuState.MENU_MAIN ∧ env.key = '1' ∧ s.systemEnabled = true)) :
    (handleKeypad env s).doorOpen = s.doorOpen ∧
    (handleKeypad env s).itemCount = s.itemCount := by
  obtain ⟨⟨ic, ti, se, d, cm⟩, led, tr, co⟩ := s
  cases cm
  · simp only [true_and, not_and, Bool.not_eq_true] at h
    simp only [handleKeypad, tone, emit, printf]
    by_cases k1 : env.key = '1'
    · have hse : se = false := h k1
      subst hse
      simp [k1, processItem, playErrorSound_eq]
    · by_cases k2 : env.key = '2'
      · simp [k2, displayStats_eq]
      · by_cases k3 : env.key = '3'
        · simp [k3, displaySettings_eq]
        · by_cases k4 : env.key = 'A' <;> simp [k1, k2, k3, k4]
  · simp only [handleKeypad, tone, emit, printf]
    split <;> simp [displayMainMenu_eq]
  · simp only [handleKeypad, tone, emit, printf]
    split
    · simp [displaySettings_eq]
    · split <;> simp [displayMainMenu_eq]
  · simp [handleKeypad, tone, emit, printf]

/-- Witness of C5 (amended): key `'1'` in the main menu of a disabled system. -/
theorem handleKeypad_frame_witness :
    ¬ (({ initialState with systemEnabled := false } : State).currentMenu = MenuState.MENU_MAIN ∧
        ({ sampleEnv with key := '1' } : Env).key = '1' ∧
        ({ initialState with systemEnabled := false } : State).systemEnabled = true) ∧
    (handleKeypad { sampleEnv with key := '1' }
      { initialState with systemEnabled := false }).itemCount =
      ({ initialState with systemEnabled := false } : State).itemCount :=
  ⟨by decide,
    (handleKeypad_frame { sampleEnv with key := '1' }
      { initialState with systemEnabled := false } (by decide)).2⟩

/-- C6: the settings scenario. From the main menu of an enabled system, for
every `itemCount` and `totalItems`: key `'3'` leads to the settings menu; key
`'A'` switches `systemEnabled` to false and redraws the settings screen with
`A:OFF`; key `'A'` again switches it back to true and redraws the screen with
`A:ON`; key `'0'` leads back to the main menu; `itemCount` and `totalItems` are
then what they were at the start. In general key `'A'` in the settings menu
negates `systemEnabled`, and pressing it twice restores it. -/
theorem handleKeypad_settings_scenario :
    (∀ (e1 e2 e3 e4 : Env) (s : State),
      s.currentMenu = MenuState.MENU_MAIN → s.systemEnabled = true →
      e1.key = '3' → e2.key = 'A' → e3.key = 'A' → e4.key = '0' →
      (handleKeypad e1 s).currentMenu = MenuState.MENU_SETTINGS ∧
      (handleKeypad e2 (handleKeypad e1 s)).currentMenu = MenuState.MENU_SETTINGS ∧
      (handleKeypad e2 (handleKeypad e1 s)).systemEnabled = false ∧
      (handleKeypad e2 (handleKeypad e1 s)).events =
        (handleKeypad e1 s).events ++ [Event.tone Note.NOTE_C4 16] ++
          settingsHeadEvents ++ lcdText ['O', 'F', 'F'] ∧
      (handleKeypad e3 (handleKeypad e2 (handleKeypad e1 s))).currentMenu
        = MenuState.MENU_SETTINGS ∧
      (handleKeypad e3 (handleKeypad e2 (handleKeypad e1 s))).systemEnabled = true ∧
      (handleKeypad e3 (handleKeypad e2 (handleKeypad e1 s))).events =
        (handleKeypad e2 (handleKeypad e1 s)).events ++ [Event.tone Note.NOTE_C4 16] ++
          settingsHeadEvents ++ lcdText ['O', 'N'] ∧
      (handleKeypad e4 (handleKeypad e3 (handleKeypad e2 (handleKeypad e1 s)))).currentMenu
        = MenuState.MENU_MAIN ∧
      (handleKeypad e4 (handleKeypad e3 (handleKeypad e2 (handleKeypad e1 s)))).systemEnabled
        = true ∧
      (handleKeypad e4 (handleKeypad e3 (handleKeypad e2 (handleKeypad e1 s)))).itemCount
        = s.itemCount ∧
      (handleKeypad e4 (handleKeypad e3 (handleKeypad e2 (handleKeypad e1 s)))).totalItems
        = s.totalItems) ∧
    (∀ (env env2 : Env) (s : State),
      s.currentMenu = MenuState.MENU_SETTINGS → env.key = 'A' → env2.key = 'A' →
      (handleKeypad env s).systemEnabled = (!s.systemEnabled) ∧
      (handleKeypad env s).currentMenu = MenuState.MENU_SETTINGS ∧
      (handleKeypad env2 (handleKeypad env s)).systemEnabled = s.systemEnabled) := by
  have hA : ∀ (env : Env) (s : State), s.currentMenu = MenuState.MENU_SETTINGS → env.key = 'A' →
      handleKeypad env s =
        { s with
          systemEnabled := !s.systemEnabled
          trace := s.trace ++ stamp s.toGlobals [Event.tone Note.NOTE_C4 16] ++
            stamp { s.toGlobals with systemEnabled := !s.systemEnabled }
              (settingsEvents (!s.systemEnabled))
          console := s.console ++ ["Key pressed: A\r\n"] } := by
    intro env s hm hk
    obtain ⟨⟨ic, ti, se, d, cm⟩, led, tr, co⟩ := s
    simp only at hm
    subst hm
    simp only [handleKeypad, tone, emit, printf, hk, if_true, displaySettings_eq]
    simp [stamp]
    decide
  have h3 : ∀ (env : Env) (s : State), s.currentMenu = MenuState.MENU_MAIN → env.key = '3' →
      handleKeypad env s =
        { s with
          currentMenu := MenuState.MENU_SETTINGS
          trace := s.trace ++ stamp s.toGlobals [Event.tone Note.NOTE_C4 16] ++
            stamp { s.toGlobals with currentMenu := MenuState.MENU_SETTINGS }
              (settingsEvents s.systemEnabled)
          console := s.console ++ ["Key pressed: 3\r\n"] } := by
    intro env s hm hk
    obtain ⟨⟨ic, ti, se, d, cm⟩, led, tr, co⟩ := s
    simp only at hm
    subst hm
    simp only [handleKeypad, tone, emit, printf, hk, displaySettings_eq]
    simp [stamp]
    decide
  have h0 : ∀ (env : Env) (s : State), s.currentMenu = MenuState.MENU_SETTINGS → env.key = '0' →
      handleKeypad env s =
        { s with
          currentMenu := MenuState.MENU_MAIN
          trace := s.trace ++ stamp s.toGlobals [Event.tone Note.NOTE_C4 16] ++
            stamp { s.toGlobals with currentMenu := MenuState.MENU_MAIN }
              (mainMenuEvents s.totalItems)
          console := s.console ++ ["Key pressed: 0\r\n"] } := by
    intro env s hm hk
    obtain ⟨⟨ic, ti, se, d, cm⟩, led, tr, co⟩ := s
    simp only at hm
    subst hm
    simp only [handleKeypad, tone, emit, printf, hk, displayMainMenu_eq]
    simp [stamp]
    decide
  constructor
  · intro e1 e2 e3 e4 s hm he k1 k2 k3 k4
    have q1 := h3 e1 s hm k1
    have m1 : (handleKeypad e1 s).currentMenu = MenuState.MENU_SETTINGS := by rw [q1]
    have q2 := hA e2 _ m1 k2
    have m2 : (handleKeypad e2 (handleKeypad e1 s)).currentMenu = MenuState.MENU_SETTINGS := by
      rw [q2]; exact m1
    have q3 := hA e3 _ m2 k3
    have m3 : (handleKeypad e3 (handleKeypad e2 (handleKeypad e1 s))).currentMenu
        = MenuState.MENU_SETTINGS := by
      rw [q3]; exact m2
    have q4 := h0 e4 _ m3 k4
    have n1 : (handleKeypad e1 s).systemEnabled = true := by rw [q1]; exact he
    have n2 : (handleKeypad e2 (handleKeypad e1 s)).systemEnabled = false := by
      rw [q2]; simp [n1]
    have n3 : (handleKeypad e3 (handleKeypad e2 (handleKeypad e1 s))).systemEnabled = true := by
      rw [q3]; simp [n2]
    refine ⟨m1, m2, n2, ?_, m3, n3, ?_, ?_, ?_, ?_, ?_⟩
    · rw [q2]
      simp [State.events, stamp, settingsEvents, n1, List.append_assoc, Function.comp_def]
    · rw [q3]
      simp [State.events, stamp, settingsEvents, n2, List.append_assoc, Function.comp_def]
    · rw [q4]
    · rw [q4]; exact n3
    · rw [q4, q3, q2, q1]
    · rw [q4, q3, q2, q1]
  · intro env env2 s hm k k2
    have q1 := hA env s hm k
    have m1 : (handleKeypad env s).currentMenu = MenuState.MENU_SETTINGS := by
      rw [q1]; exact hm
    have q2 := hA env2 _ m1 k2
    refine ⟨by rw [q1], m1, ?_⟩
    rw [q2, q1]
    simp

/-- C7: for every combination of the four `isFull()` results, `checkBinLevels`
changes no global; if at least one bin reports full it sets `ledBinFull` to 1,
plays `tone(NOTE_A4, 8)` exactly three times, writes the warning and waits
3000 ms; if none reports full its only call sets `ledBinFull` to 0. -/
theorem checkBinLevels_alarm (env : Env) (s : State) :
    (checkBinLevels env s).toGlobals = s.toGlobals ∧
    ((env.plasticFull = true ∨ env.metalFull = true ∨ env.paperFull = true ∨
        env.glassFull = true) →
      (checkBinLevels env s).events = s.events ++
        [Event.pinWrite Pin.ledBinFull 1,
         Event.tone Note.NOTE_A4 8, Event.thread_sleep_for 100,
         Event.tone Note.NOTE_A4 8, Event.thread_sleep_for 100,
         Event.tone Note.NOTE_A4 8, Event.thread_sleep_for 100,
         Event.lcd_write_cmd 0x01, Event.lcd_write_cmd 0x80] ++
        lcdText ['W', 'A', 'R', 'N', 'I', 'N', 'G', '!'] ++
        [Event.lcd_write_cmd 0xC0] ++
        lcdText ['B', 'i', 'n', ' ', 'F', 'U', 'L', 'L', '!'] ++
        [Event.thread_sleep_for 3000] ∧
      (((checkBinLevels env s).events.drop s.events.length).filter
        (fun e => decide (e = Event.tone Note.NOTE_A4 8))).length = 3) ∧
    ((env.plasticFull = false ∧ env.metalFull = false ∧ env.paperFull = false ∧
        env.glassFull = false) →
      (checkBinLevels env s).events = s.events ++ [Event.pinWrite Pin.ledBinFull 0]) := by
  rw [checkBinLevels_eq]
  refine ⟨rfl, ?_, ?_⟩
  · intro h
    have ha : anyBinFull env = true := by
      simp only [anyBinFull, Bool.or_eq_true]
      tauto
    have he : ({ s with trace := s.trace ++ stamp s.toGlobals (binLevelEvents env) } : State).events
        = s.events ++ binFullEvents := by
      simp [State.events, stamp, binLevelEvents, ha, Function.comp_def]
    rw [he]
    refine ⟨by simp [binFullEvents, List.append_assoc], ?_⟩
    rw [List.drop_left]
    decide
  · rintro ⟨h1, h2, h3, h4⟩
    simp [State.events, stamp, binLevelEvents, anyBinFull, h1, h2, h3, h4]

/-- Witness of C7: no bin full, and only the glass bin full. -/
theorem checkBinLevels_alarm_witness :
    (sampleEnv.plasticFull = false ∧ sampleEnv.metalFull = false ∧
      sampleEnv.paperFull = false ∧ sampleEnv.glassFull = false) ∧
    (checkBinLevels sampleEnv initialState).events =
      initialState.events ++ [Event.pinWrite Pin.ledBinFull 0] ∧
    ((({ sampleEnv with glassFull := true } : Env).plasticFull = true ∨
      ({ sampleEnv with glassFull := true } : Env).metalFull = true ∨
      ({ sampleEnv with glassFull := true } : Env).paperFull = true ∨
      ({ sampleEnv with glassFull := true } : Env).glassFull = true)) ∧
    (((checkBinLevels { sampleEnv with glassFull := true } initialState).events.drop
        initialState.events.length).filter
      (fun e => decide (e = Event.tone Note.NOTE_A4 8))).length = 3 :=
  ⟨⟨rfl, rfl, rfl, rfl⟩,
    (checkBinLevels_alarm sampleEnv initialState).2.2 ⟨rfl, rfl, rfl, rfl⟩,
    Or.inr (Or.inr (Or.inr rfl)),
    ((checkBinLevels_alarm { sampleEnv with glassFull := true } initialState).2.1
      (Or.inr (Or.inr (Or.inr rfl)))).2⟩

/-- Witness of C6: the scenario from the initial state. -/
theorem handleKeypad_settings_scenario_witness :
    initialState.currentMenu = MenuState.MENU_MAIN ∧ initialState.systemEnabled = true ∧
    (handleKeypad { sampleEnv with key := 'A' }
      (handleKeypad { sampleEnv with key := '3' } initialState)).systemEnabled = false ∧
    (handleKeypad { sampleEnv with key := '0' }
      (handleKeypad { sampleEnv with key := 'A' }
        (handleKeypad { sampleEnv with key := 'A' }
          (handleKeypad { sampleEnv with key := '3' } initialState)))).totalItems
      = initialState.totalItems :=
  ⟨rfl, rfl,
    (handleKeypad_settings_scenario.1 { sampleEnv with key := '3' } { sampleEnv with key := 'A' }
      { sampleEnv with key := 'A' } { sampleEnv with key := '0' } initialState
      rfl rfl rfl rfl rfl rfl).2.2.1,
    (handleKeypad_settings_scenario.1 { sampleEnv with key := '3' } { sampleEnv with key := 'A' }
      { sampleEnv with key := 'A' } { sampleEnv with key := '0' } initialState
      rfl rfl rfl rfl rfl rfl).2.2.2.2.2.2.2.2.2.2⟩

/-- C8: on an enabled system, for every category the classifier returns,
`processItem` makes its calls in this order: door open (2000 ms drive), 3000 ms
settle wait, door close (2000 ms drive), processing screen, `detectMaterial`,
result screen with the material name, 2000 ms wait, `rotateToBin` with the
detected category, success tones, bin level check, main menu screen. The
counters are incremented between `rotateToBin` and the first success tone:
every call up to `rotateToBin` is made with the old `itemCount` and
`totalItems`, every later call with the new ones. The globals after the cycle
are the same whatever the category. -/
theorem processItem_phases (env : Env) (s : State) (h : s.systemEnabled = true) :
    (processItem env s).events = s.events ++
      openDoorEvents ++ [Event.thread_sleep_for 3000] ++ closeDoorEvents ++
      processingEvents ++ [Event.detectMaterial] ++
      resultEvents (env.getMaterialName env.material) ++
      [Event.thread_sleep_for 2000] ++ [Event.rotateToBin env.material] ++
      successTones ++ binLevelEvents env ++ mainMenuEvents (processItem env s).totalItems ∧
    (processItem env s).totalItems = wrapInt32 (s.totalItems + 1) ∧
    (processItem env s).itemCount =
      update { s.itemCount with c0 := wrapUInt8 (s.itemCount.c0 + 1) } ∧
    (processItem env s).doorOpen = false ∧
    (∃ pre post : List (Event × Globals),
      (processItem env s).trace = s.trace ++ pre ++ post ∧
      pre.map Prod.fst =
        openDoorEvents ++ [Event.thread_sleep_for 3000] ++ closeDoorEvents ++
        processingEvents ++ [Event.detectMaterial] ++
        resultEvents (env.getMaterialName env.material) ++
        [Event.thread_sleep_for 2000] ++ [Event.rotateToBin env.material] ∧
      post.map Prod.fst =
        successTones ++ binLevelEvents env ++ mainMenuEvents (processItem env s).totalItems ∧
      (∀ r ∈ pre, r.2.itemCount = s.itemCount ∧ r.2.totalItems = s.totalItems) ∧
      (∀ r ∈ post, r.2.itemCount = (processItem env s).itemCount ∧
        r.2.totalItems = (processItem env s).totalItems)) ∧
    (∀ m : MaterialType,
      (processItem { env with material := m } s).toGlobals = (processItem env s).toGlobals) := by
  refine ⟨?_, ?_, ?_, ?_, ?_, ?_⟩
  · rw [processItem_enabled_eq env s h]
    simp [State.events, stamp, classifyEvents, countedEvents, countedGlobals, List.append_assoc,
      Function.comp_def]
  · rw [processItem_enabled_eq env s h]; rfl
  · rw [processItem_enabled_eq env s h]; rfl
  · rw [processItem_enabled_eq env s h]; rfl
  · rw [processItem_enabled_eq env s h]
    refine ⟨stamp s.toGlobals openDoorEvents ++
        stamp { s.toGlobals with doorOpen := true }
          (Event.thread_sleep_for 3000 :: closeDoorEvents) ++
        stamp { s.toGlobals with doorOpen := false } (classifyEvents env),
      stamp (countedGlobals s.toGlobals) (countedEvents env (wrapInt32 (s.totalItems + 1))),
      ?_, ?_, ?_, ?_, ?_⟩
    · simp [List.append_assoc]
    · simp [stamp, classifyEvents, List.append_assoc, Function.comp_def]
    · simp [stamp, countedEvents, countedGlobals, List.append_assoc, Function.comp_def]
    · intro r hr
      simp only [stamp, List.mem_append, List.mem_map] at hr
      rcases hr with (⟨e, _, rfl⟩ | ⟨e, _, rfl⟩) | ⟨e, _, rfl⟩ <;> exact ⟨rfl, rfl⟩
    · intro r hr
      simp only [stamp, List.mem_map] at hr
      obtain ⟨e, _, rfl⟩ := hr
      exact ⟨rfl, rfl⟩
  · intro m
    rw [processItem_enabled_eq env s h, processItem_enabled_eq { env with material := m } s h]

/-- Witness of C8: a cycle from the initial state in which the classifier
returns `Unknown`. -/
theorem processItem_phases_witness :
    initialState.systemEnabled = true ∧
    (processItem { sampleEnv with material := MaterialType.Unknown } initialState).toGlobals =
      (processItem { sampleEnv with material := MaterialType.Plastic } initialState).toGlobals ∧
    (processItem { sampleEnv with material := MaterialType.Unknown } initialState).totalItems =
      wrapInt32 (initialState.totalItems + 1) :=
  ⟨rfl,
    (processItem_phases { sampleEnv with material := MaterialType.Plastic } initialState rfl).2.2.2.2.2
      MaterialType.Unknown,
    (processItem_phases { sampleEnv with material := MaterialType.Unknown } initialState rfl).2.1⟩

/-- C9: an iteration of the main loop starts a cycle exactly when the sensor
reads 1, `doorOpen` is false and `systemEnabled` is true. In that case its calls
are the welcome tones, the calls of a complete cycle, the 3000 ms cooldown and
the housekeeping, in this order; otherwise its calls are the housekeeping alone
and the globals are unchanged. The welcome tone is played in an iteration if
and only if the condition holds. From the boot state, after any number of
iterations `doorOpen` is false and `systemEnabled` is true, and the console
consists of the boot lines followed by whole cycle blocks, each started cycle
being completed before the next one starts. -/
theorem mainLoop_cycles :
    (∀ (env : Env) (s : State), triggered env s →
      (mainLoopBody env s).events = s.events ++ welcomeTones ++
        openDoorEvents ++ [Event.thread_sleep_for 3000] ++ closeDoorEvents ++
        classifyEvents env ++ countedEvents env (wrapInt32 (s.totalItems + 1)) ++
        [Event.thread_sleep_for 3000] ++
        housekeepingEvents env (mainLoopBody env s).itemCount s.ledSystem ∧
      (mainLoopBody env s).console = s.console ++ "Motion detected!\r\n" :: cycleConsole env ∧
      (mainLoopBody env s).totalItems = wrapInt32 (s.totalItems + 1) ∧
      (mainLoopBody env s).doorOpen = false) ∧
    (∀ (env : Env) (s : State), ¬ triggered env s →
      (mainLoopBody env s).itemCount = s.itemCount ∧
      (mainLoopBody env s).totalItems = s.totalItems ∧
      (mainLoopBody env s).doorOpen = s.doorOpen ∧
      (mainLoopBody env s).systemEnabled = s.systemEnabled ∧
      (mainLoopBody env s).currentMenu = s.currentMenu ∧
      (mainLoopBody env s).events = s.events ++ housekeepingEvents env s.itemCount s.ledSystem ∧
      (mainLoopBody env s).console = s.console) ∧
    (∀ (env : Env) (s : State),
      Event.tone Note.NOTE_C4 8 ∈ (mainLoopBody env s).events.drop s.events.length ↔
        (env.pirSensor = 1 ∧ s.doorOpen = false ∧ s.systemEnabled = true)) ∧
    (∀ envs : List Env,
      (mainLoop envs bootState).doorOpen = false ∧
      (mainLoop envs bootState).systemEnabled = true ∧
      (mainLoop envs bootState).console = bootState.console ++ loopConsole envs) := by
  have hT : ∀ (env : Env) (s : State), triggered env s →
      (mainLoopBody env s).events = s.events ++ (welcomeTones ++
        openDoorEvents ++ [Event.thread_sleep_for 3000] ++ closeDoorEvents ++
        classifyEvents env ++ countedEvents env (wrapInt32 (s.totalItems + 1)) ++
        [Event.thread_sleep_for 3000] ++
        housekeepingEvents env (mainLoopBody env s).itemCount s.ledSystem) := by
    intro env s ht
    rw [mainLoopBody_triggered env s ht]
    simp [housekeeping, State.events, stamp, List.append_assoc, Function.comp_def]
  have hI : ∀ (env : Env) (s : State), ¬ triggered env s →
      (mainLoopBody env s).events = s.events ++ housekeepingEvents env s.itemCount s.ledSystem := by
    intro env s ht
    rw [mainLoopBody_idle env s ht]
    simp [housekeeping, State.events, stamp, Function.comp_def]
  refine ⟨?_, ?_, ?_, ?_⟩
  · intro env s ht
    refine ⟨?_, ?_, ?_, ?_⟩
    · rw [hT env s ht]; simp [List.append_assoc]
    · rw [mainLoopBody_triggered env s ht]; rfl
    · rw [mainLoopBody_triggered env s ht]; rfl
    · rw [mainLoopBody_triggered env s ht]; rfl
  · intro env s ht
    refine ⟨?_, ?_, ?_, ?_, ?_, hI env s ht, ?_⟩ <;>
    · rw [mainLoopBody_idle env s ht]; rfl
  · intro env s
    by_cases ht : triggered env s
    · rw [hT env s ht, List.drop_left]
      simp only [show (env.pirSensor = 1 ∧ s.doorOpen = false ∧ s.systemEnabled = true) from ht,
        and_self, iff_true]
      simp [welcomeTones]
    · rw [hI env s ht, List.drop_left]
      simp only [show ¬ (env.pirSensor = 1 ∧ s.doorOpen = false ∧ s.systemEnabled = true) from ht,
        iff_false]
      simp [housekeepingEvents, segmentEvents]
  · intro envs
    have hg := bootState_globals
    have hd : bootState.doorOpen = false := congrArg Globals.doorOpen hg
    have he : bootState.systemEnabled = true := congrArg Globals.systemEnabled hg
    obtain ⟨i1, i2, _, i4⟩ := mainLoop_invariant envs bootState hd he
    exact ⟨i1, i2, i4⟩

/-- Witness of C9: from the boot state, an iteration with motion starts a cycle
and an iteration without motion changes no counter. -/
theorem mainLoop_cycles_witness :
    triggered { sampleEnv with pirSensor := 1 } bootState ∧
    (mainLoopBody { sampleEnv with pirSensor := 1 } bootState).totalItems =
      wrapInt32 (bootState.totalItems + 1) ∧
    ¬ triggered sampleEnv bootState ∧
    (mainLoopBody sampleEnv bootState).totalItems = bootState.totalItems :=
  ⟨⟨rfl, congrArg Globals.doorOpen bootState_globals,
      congrArg Globals.systemEnabled bootState_globals⟩,
    (mainLoop_cycles.1 { sampleEnv with pirSensor := 1 } bootState
      ⟨rfl, congrArg Globals.doorOpen bootState_globals,
        congrArg Globals.systemEnabled bootState_globals⟩).2.2.1,
    fun h => absurd h.1 (by decide),
    (mainLoop_cycles.2.1 sampleEnv bootState (fun h => absurd h.1 (by decide))).2.1⟩

/-- C10 at the failing input: with both bins at 100 percent, the two characters
`displayStats` writes after `P:` and after `M:` are `':'` and `'0'`, and `':'`
is not a decimal digit; at 99 percent they are `'9'` and `'9'`. -/
theorem displayStats_level_100 :
    (displayStats { sampleEnv with plasticLevel := 100, metalLevel := 100 } initialState).events =
      [Event.lcd_write_cmd 0x01, Event.lcd_write_cmd 0x80] ++
      lcdText ['B', 'i', 'n', ' ', 'L', 'e', 'v', 'e', 'l', 's'] ++
      [Event.lcd_write_cmd 0xC0] ++
      lcdText ['P', ':', ':', '0', ' ', 'M', ':', ':', '0'] ∧
    Char.isDigit ':' = false ∧
    (displayStats { sampleEnv with plasticLevel := 99, metalLevel := 99 } initialState).events =
      [Event.lcd_write_cmd 0x01, Event.lcd_write_cmd 0x80] ++
      lcdText ['B', 'i', 'n', ' ', 'L', 'e', 'v', 'e', 'l', 's'] ++
      [Event.lcd_write_cmd 0xC0] ++
      lcdText ['P', ':', '9', '9', ' ', 'M', ':', '9', '9'] := by
  refine ⟨?_, by decide, ?_⟩ <;>
  · rw [displayStats_eq]
    decide

end SmartBin
